import Mathlib

/-!
Verification development for the OMG Rome video gateway.

The repository is a Node/Express gateway (src/gateway.js) in front of a
StreamingService (src/streaming.js) that spawns the external tool yt-dlp to
produce video byte streams, plus a direct-URL cache variant of the
StreamingService (the unnamed source file holding getDirectStreamUrl and
urlCache). The definitions below are shallow embeddings of those source
functions: event-driven handler code becomes an explicit step function over
an explicit state, JavaScript Maps become association lists, and external
collaborators (yt-dlp itself, Node Buffer base64 decoding, JSON.parse) are
either modelled from the specification where noted or abstracted as function
parameters. Each definition carries a comment naming the source lines it
embeds.
-/

namespace OMGRome

/-! ## String helpers

JavaScript String.prototype.includes is embedded as a substring test over
character lists, written with structural recursion so that the kernel can
evaluate it on concrete inputs. -/

/-- Checks that the first list is an initial segment of the second. -/
def leadsWith : List Char → List Char → Bool
  | [], _ => true
  | _ :: _, [] => false
  | a :: as, b :: bs => a == b && leadsWith as bs

/-- Checks that `sub` occurs contiguously somewhere in `xs`. -/
def listHasSub (sub : List Char) : List Char → Bool
  | [] => leadsWith sub []
  | x :: xs => leadsWith sub (x :: xs) || listHasSub sub xs

/-- Embeds `s.includes(sub)` from JavaScript. -/
def hasSubstr (s sub : String) : Bool := listHasSub sub.toList s.toList

/-! ## Process lifecycle state machine (src/streaming.js)

createFastStream (src/streaming.js lines 4-92) and createStream (lines
94-206) each wrap one spawned yt-dlp process in a Promise and install five
callbacks: the init-timeout timer, the stdout data handler, the stderr data
handler, the process error handler and the process exit handler. The
embedding makes the mutable closure state explicit (`PState`) and turns each
callback invocation into one event processed by a step function. Node runs
these callbacks one at a time on a single thread, so a run of the system is
a fold of the step function over a list of events. -/

/-- Signals relevant to the source: it kills with SIGKILL on init timeout and
logs SIGTERM/SIGKILL specially in the best-quality exit handler. -/
inductive PSignal
  | sigterm
  | sigkill
  | otherSignal
deriving DecidableEq

/-- Settlement of the Promise returned by createFastStream / createStream:
`resolved` is the resolve with the live stdout stream; the others are the
reject sites in the source. -/
inductive Outcome
  | resolved
  | initTimeoutErr
  | stderrErr (msg : String)
  | procErr
  | exitErr (code : Option Int)
deriving DecidableEq

/-- Mutable closure state of one createFastStream / createStream invocation:
`streamReady` and `totalBytes` are the source variables of those names,
`timeoutCleared` records whether the init timer has been cleared or has
already fired, `settled` is the first resolve/reject the Promise took,
`killSignal` records a signal the code sent to the process, and
`settleAttempts` counts every resolve/reject call executed, including calls
that lose the first-settlement race. -/
structure PState where
  streamReady : Bool
  timeoutCleared : Bool
  totalBytes : Nat
  settled : Option Outcome
  killSignal : Option PSignal
  settleAttempts : Nat
deriving DecidableEq

/-- State at the moment the Promise executor has installed the handlers. -/
def initPState : PState :=
  { streamReady := false, timeoutCleared := false, totalBytes := 0,
    settled := none, killSignal := none, settleAttempts := 0 }

/-- Callback invocations on one stream session: the init timer firing, a
stdout chunk of `n` bytes, a stderr chunk, the child-process error event and
the child-process exit event (code is null when killed by a signal). -/
inductive PEvent
  | timeoutFires
  | dataChunk (n : Nat)
  | stderrData (msg : String)
  | procError
  | exited (code : Option Int) (signal : Option PSignal)
deriving DecidableEq

/-- Recognizes stdout data events. -/
def isData : PEvent → Bool
  | .dataChunk _ => true
  | _ => false

/-- Recognizes events after which no further session event can occur in a
real run: the process exited, or the spawn itself failed. -/
def isTerminalEvent : PEvent → Bool
  | .exited _ _ => true
  | .procError => true
  | _ => false

/-- Executes one resolve/reject call: the attempt is always counted, and the
Promise keeps its first settlement if it already has one. -/
def settleNow (s : PState) (o : Outcome) : PState :=
  { s with settleAttempts := s.settleAttempts + 1,
           settled := if s.settled.isSome then s.settled else some o }

/-- INIT_TIMEOUT of createFastStream, src/streaming.js line 29. -/
def FAST_INIT_TIMEOUT_MS : Nat := 10000

/-- INIT_TIMEOUT of createStream, src/streaming.js line 124. -/
def BEST_INIT_TIMEOUT_MS : Nat := 30000

/-- Embeds the five handlers of createFastStream, src/streaming.js lines
26-91. The timer fires only when it has not been cleared; when it fires with
streamReady still false the code kills with SIGKILL and rejects. The data
handler resolves on the first chunk, marking streamReady and clearing the
timer, then adds the chunk length to totalBytes. The stderr handler rejects
before readiness when the text contains ERROR or CRITICAL, clearing the
timer, and otherwise only logs. The error handler clears the timer and
rejects before readiness. The exit handler clears the timer and, only for a
code other than 0, rejects before readiness; on code 0 it only logs. -/
def fastStep (s : PState) (e : PEvent) : PState :=
  match e with
  | .timeoutFires =>
      if s.timeoutCleared then s
      else if s.streamReady then { s with timeoutCleared := true }
      else settleNow { s with timeoutCleared := true, killSignal := some PSignal.sigkill }
            Outcome.initTimeoutErr
  | .dataChunk n =>
      let s1 := if s.streamReady then s
                else settleNow { s with streamReady := true, timeoutCleared := true }
                      Outcome.resolved
      { s1 with totalBytes := s1.totalBytes + n }
  | .stderrData msg =>
      if hasSubstr msg "ERROR" || hasSubstr msg "CRITICAL" then
        if s.streamReady then s
        else settleNow { s with timeoutCleared := true } (Outcome.stderrErr msg)
      else s
  | .procError =>
      if s.streamReady then { s with timeoutCleared := true }
      else settleNow { s with timeoutCleared := true } Outcome.procErr
  | .exited code _ =>
      if code == some 0 then { s with timeoutCleared := true }
      else if s.streamReady then { s with timeoutCleared := true }
      else settleNow { s with timeoutCleared := true } (Outcome.exitErr code)

/-- Embeds the five handlers of createStream, src/streaming.js lines
121-204. They differ from the fast ones only in the exit handler, which also
declines to reject when the process died from SIGTERM or SIGKILL, and in
extra stderr logging branches that do not touch the state. -/
def bestStep (s : PState) (e : PEvent) : PState :=
  match e with
  | .timeoutFires =>
      if s.timeoutCleared then s
      else if s.streamReady then { s with timeoutCleared := true }
      else settleNow { s with timeoutCleared := true, killSignal := some PSignal.sigkill }
            Outcome.initTimeoutErr
  | .dataChunk n =>
      let s1 := if s.streamReady then s
                else settleNow { s with streamReady := true, timeoutCleared := true }
                      Outcome.resolved
      { s1 with totalBytes := s1.totalBytes + n }
  | .stderrData msg =>
      if hasSubstr msg "ERROR" || hasSubstr msg "CRITICAL" then
        if s.streamReady then s
        else settleNow { s with timeoutCleared := true } (Outcome.stderrErr msg)
      else s
  | .procError =>
      if s.streamReady then { s with timeoutCleared := true }
      else settleNow { s with timeoutCleared := true } Outcome.procErr
  | .exited code signal =>
      if code == some 0 then { s with timeoutCleared := true }
      else if signal == some PSignal.sigterm || signal == some PSignal.sigkill then
        { s with timeoutCleared := true }
      else if s.streamReady then { s with timeoutCleared := true }
      else settleNow { s with timeoutCleared := true } (Outcome.exitErr code)

/-- Runs one createFastStream session over a list of callback events. -/
def runFast (tr : List PEvent) : PState := tr.foldl fastStep initPState

/-- Runs one createStream session over a list of callback events. -/
def runBest (tr : List PEvent) : PState := tr.foldl bestStep initPState

/-! ## yt-dlp invocation parameters (src/streaming.js)

The argument vectors passed to spawn, with the trailing video URL omitted
since it varies per call. -/

/-- Arguments of the fast-quality spawn, src/streaming.js lines 10-21. -/
def fastStreamArgs : List String :=
  ["-f", "best[height<=720]/best",
   "-o", "-",
   "--no-playlist",
   "--no-cache-dir",
   "--buffer-size", "32K",
   "--http-chunk-size", "5M",
   "--retries", "2",
   "--socket-timeout", "30",
   "--extractor-args", "youtube:player_client=android",
   "--no-check-certificates"]

/-- Arguments of the best-quality spawn, src/streaming.js lines 100-116. -/
def bestStreamArgs : List String :=
  ["-f", "bestvideo+bestaudio/best",
   "-o", "-",
   "--no-playlist",
   "--no-cache-dir",
   "--buffer-size", "64K",
   "--http-chunk-size", "10M",
   "--retries", "3",
   "--fragment-retries", "3",
   "--socket-timeout", "90",
   "--retry-sleep", "2",
   "--merge-output-format", "mp4",
   "--extractor-args", "youtube:player_client=android",
   "--no-check-certificates",
   "--hls-prefer-native",
   "--prefer-ffmpeg"]

/-- Reads the value following a flag in an argument vector, as yt-dlp would
when consuming a `flag value` pair. -/
def argValue : List String → String → Option String
  | [], _ => none
  | [_], _ => none
  | f :: v :: rest, flag => if f = flag then some v else argValue (v :: rest) flag

/-! ## Format selector syntax and selection semantics

The `-f` selector string is parsed syntactically from the source argument
vector: alternatives are separated by `/` and tried in order, components of
one alternative are joined by `+` and merged server-side, and a component
may carry a `[height<=N]` filter. -/

/-- Splits a character list on every occurrence of the separator. -/
def splitOnChar (c : Char) : List Char → List (List Char)
  | [] => [[]]
  | x :: xs =>
      let r := splitOnChar c xs
      if x == c then [] :: r
      else
        match r with
        | [] => [[x]]
        | y :: ys => (x :: y) :: ys

/-- Splits a character list at the first occurrence of the marker, keeping
the marker in the second part. -/
def takeUntil (c : Char) : List Char → List Char × List Char
  | [] => ([], [])
  | x :: xs =>
      if x == c then ([], x :: xs)
      else
        let r := takeUntil c xs
        (x :: r.1, r.2)

/-- Parses a decimal numeral. -/
def parseNatDigits (cs : List Char) : Option Nat :=
  cs.foldl
    (fun acc c =>
      match acc with
      | some a => if c.isDigit then some (a * 10 + (c.toNat - 48)) else none
      | none => none)
    (some 0)

/-- One component of a format alternative: a format id and an optional
height cap from a `[height<=N]` filter. -/
structure FormatComp where
  fid : String
  heightCap : Option Nat
deriving DecidableEq

/-- Parses one component such as `best[height<=720]` or `bestaudio`. -/
def parseComp (cs : List Char) : FormatComp :=
  let p := takeUntil '[' cs
  match p.2 with
  | [] => { fid := String.mk p.1, heightCap := none }
  | _ :: rest =>
      let f := (takeUntil ']' rest).1
      if leadsWith "height<=".toList f then
        { fid := String.mk p.1, heightCap := parseNatDigits (f.drop 8) }
      else { fid := String.mk p.1, heightCap := none }

/-- Parses one alternative: components joined by `+`. More than one
component means a server-side merge is requested. -/
def parseAlt (cs : List Char) : List FormatComp :=
  (splitOnChar '+' cs).map parseComp

/-- Parses a whole selector: alternatives separated by `/`. -/
def parseSelector (s : String) : List (List FormatComp) :=
  (splitOnChar '/' s.toList).map parseAlt

/-- Selector string the fast spawn passes to `-f`. -/
def fastFormatSelector : String := (argValue fastStreamArgs "-f").getD ""

/-- Selector string the best spawn passes to `-f`. -/
def bestFormatSelector : String := (argValue bestStreamArgs "-f").getD ""

/-- Parsed alternatives of the fast selector. -/
def fastAlts : List (List FormatComp) := parseSelector fastFormatSelector

/-- Parsed alternatives of the best selector. -/
def bestAlts : List (List FormatComp) := parseSelector bestFormatSelector

/-- Kinds of rendition the upstream platform can offer. -/
inductive RKind
  | combined
  | videoOnly
  | audioOnly
deriving DecidableEq

/-- One rendition offered upstream: whether audio and video are already
multiplexed into a single file, and its vertical resolution. -/
structure Rendition where
  kind : RKind
  height : Nat
deriving DecidableEq

/-- Modelled from the spec: the external extractor (yt-dlp) is outside this
repository, so its format selection is modelled from the specification of
the consumed interface (sections 4.2 and 6 and the glossary): `best` picks
the best pre-combined single-file rendition, `bestvideo` and `bestaudio`
pick video-only and audio-only renditions, a `[height<=N]` filter restricts
candidates to that height, and a component of any other name matches
nothing. -/
def matchesComp (c : FormatComp) (r : Rendition) : Bool :=
  (match c.heightCap with
   | some h => decide (r.height ≤ h)
   | none => true) &&
  (if c.fid = "best" then r.kind == RKind.combined
   else if c.fid = "bestvideo" then r.kind == RKind.videoOnly
   else if c.fid = "bestaudio" then r.kind == RKind.audioOnly
   else false)

/-- Modelled from the spec: among the matching renditions, the extractor
takes the one of greatest height. -/
def pickBest (rs : List Rendition) (c : FormatComp) : Option Rendition :=
  (rs.filter (matchesComp c)).foldl
    (fun acc r =>
      match acc with
      | none => some r
      | some a => if a.height < r.height then some r else some a)
    none

/-- Collects component picks, failing when any component found nothing. -/
def seqOptions : List (Option Rendition) → Option (List Rendition)
  | [] => some []
  | none :: _ => none
  | some r :: rest => (seqOptions rest).map (fun l => r :: l)

/-- Result of running the selector: a single pre-existing file is streamed
directly, several picked renditions mean a server-side merge, and noFormat
is an extraction failure. -/
inductive Selection
  | singleFile (r : Rendition)
  | mergeFiles (rs : List Rendition)
  | noFormat
deriving DecidableEq

/-- Modelled from the spec: one alternative succeeds when every component
picks a rendition, producing a direct stream for one component and a merge
for several. -/
def selectAlt (rs : List Rendition) (alt : List FormatComp) : Option Selection :=
  match seqOptions (alt.map (pickBest rs)) with
  | none => none
  | some [] => none
  | some [r] => some (Selection.singleFile r)
  | some picks => some (Selection.mergeFiles picks)

/-- Modelled from the spec: alternatives are tried left to right and the
first that succeeds wins; when none succeeds the extraction fails. -/
def selectFormat (alts : List (List FormatComp)) (rs : List Rendition) : Selection :=
  match alts with
  | [] => Selection.noFormat
  | a :: rest =>
      match selectAlt rs a with
      | some sel => sel
      | none => selectFormat rest rs

/-- Recognizes a server-side merge result. -/
def isMerge : Selection → Bool
  | .mergeFiles _ => true
  | _ => false

/-! ## Proxy streaming endpoint (src/gateway.js lines 241-317)

The handler of `app.get` on `/proxy/:pluginName/:videoId` runs for GET and
also for HEAD, since Express routes HEAD requests through GET handlers and
the handler itself branches on `req.method === 'HEAD'`. Its collaborators
are abstracted as parameters: `resolveUrl` stands for
`plugin.getVideoUrl(videoId, config)` with `none` meaning the plugin threw,
and `streamSettles` tells whether the awaited createFastStream or
createStream Promise resolved for the given URL. The spawn of the external
process happens synchronously inside createFastStream and createStream
before any await can settle, so the spawn counter is incremented whenever
one of them is invoked, whatever the stream start later does. The handler
reads no shared in-flight registry and no such registry exists anywhere in
gateway.js or streaming.js, which is why the gateway state carries nothing
but the spawn counter. -/

/-- One request hitting the proxy endpoint. -/
structure ProxyRequest where
  methodIsHead : Bool
  pluginName : String
  videoId : String
  quality : Option String
deriving DecidableEq

/-- Responses the handler can produce: 404 for an unknown plugin, a
headers-only 200 for HEAD, the piped byte stream, or the 500 JSON error of
the catch block. -/
inductive ProxyResponse
  | notFound
  | headersOnly
  | piped
  | errorJson
deriving DecidableEq

/-- Shared gateway state: the count of external extraction processes spawned
so far, the test-double counter the spec proposes. -/
structure GatewayState where
  spawnCount : Nat
deriving DecidableEq

/-- Initial gateway state. -/
def gw0 : GatewayState := { spawnCount := 0 }

/-- Embeds the proxy handler, src/gateway.js lines 241-317: look up the
plugin (404 when absent), resolve the video URL (the catch block answers 500
when the plugin throws), invoke createFastStream or createStream - which
spawns one process - await it (the catch block answers 500 when it rejects),
set the streaming headers, and for HEAD end the response with status 200
before any piping; otherwise pipe the stream. -/
def handleProxy (plugins : List String) (resolveUrl : String → String → Option String)
    (streamSettles : String → Bool) (s : GatewayState) (r : ProxyRequest) :
    GatewayState × ProxyResponse :=
  if plugins.contains r.pluginName then
    match resolveUrl r.pluginName r.videoId with
    | none => (s, ProxyResponse.errorJson)
    | some url =>
        let s1 : GatewayState := { spawnCount := s.spawnCount + 1 }
        if streamSettles url then
          if r.methodIsHead then (s1, ProxyResponse.headersOnly)
          else (s1, ProxyResponse.piped)
        else (s1, ProxyResponse.errorJson)
  else (s, ProxyResponse.notFound)

/-- Processes a list of proxy requests against the shared gateway state. The
handler writes nothing into the state that later requests read, so this fold
covers every interleaving of concurrent requests. -/
def runProxy (plugins : List String) (resolveUrl : String → String → Option String)
    (streamSettles : String → Bool) (s : GatewayState) (rs : List ProxyRequest) :
    GatewayState :=
  rs.foldl (fun st r => (handleProxy plugins resolveUrl streamSettles st r).1) s

/-! ## Client disconnect handling (src/gateway.js lines 287-300)

The close and aborted handlers receive the `videoStream` object, which is
the `ytDlp.stdout` Readable returned by createFastStream / createStream. The
child-process object itself never leaves streaming.js, and gateway.js
contains no call to kill; the handlers only call `videoStream.destroy()`
when that method exists. -/

/-- Observable effects on the stream handle held by the proxy handler:
whether the handle has a destroy method, whether destroy was called on it,
and whether any termination signal was sent to the underlying process. -/
structure StreamHandle where
  hasDestroy : Bool
  destroyCalled : Bool
  killCalled : Bool
deriving DecidableEq

/-- Embeds the body shared by the close and aborted handlers, src/gateway.js
lines 288-300: `if (videoStream && videoStream.destroy) videoStream.destroy()`.
No code path touches the child process, so `killCalled` is never set. -/
def onClientDisconnect (h : StreamHandle) : StreamHandle :=
  if h.hasDestroy then { h with destroyCalled := true } else h

/-- The handle actually returned by the StreamingService: a Node Readable,
which has a destroy method, with nothing called on it yet and no signal ever
sent by the gateway. -/
def ytDlpStdoutHandle : StreamHandle :=
  { hasDestroy := true, destroyCalled := false, killCalled := false }

/-! ## Direct-URL cache (unnamed StreamingService source, getDirectStreamUrl)

The cache-bearing StreamingService (the unnamed source file of this
repository, lines 163-241) keeps `this.urlCache`, a JavaScript Map from
videoId to `{url, extractedAt, expiresAt}`, with
`CACHE_DURATION = 2 * 60 * 60 * 1000` milliseconds. The Map is embedded as
an association list; Map.set overwrites the entry of an existing key and
Map.delete removes the key. -/

/-- One cached direct-URL entry. -/
structure CacheEntry where
  url : String
  extractedAt : Nat
  expiresAt : Nat
deriving DecidableEq

/-- CACHE_DURATION from the source: two hours in milliseconds. -/
def CACHE_DURATION : Nat := 2 * 60 * 60 * 1000

/-- The urlCache Map as an association list. -/
abbrev UrlCache := List (String × CacheEntry)

/-- Map.get / Map.has combined: the entry stored under a key. -/
def mapGet : UrlCache → String → Option CacheEntry
  | [], _ => none
  | (k, e) :: rest, key => if k = key then some e else mapGet rest key

/-- Map.set: overwrites the entry of an existing key, appends otherwise. -/
def mapSet : UrlCache → String → CacheEntry → UrlCache
  | [], key, v => [(key, v)]
  | (k, e) :: rest, key, v =>
      if k = key then (key, v) :: rest else (k, e) :: mapSet rest key v

/-- Map.delete: removes the key. -/
def mapDelete : UrlCache → String → UrlCache
  | [], _ => []
  | (k, e) :: rest, key =>
      if k = key then mapDelete rest key else (k, e) :: mapDelete rest key

/-- Embeds the cache-consulting head of getDirectStreamUrl (source lines
172-184): a stored entry with `now < expiresAt` is a hit returning the
stored url and leaving the cache unchanged; a stored entry past that is
deleted and treated as a miss, which makes the caller re-extract; an absent
key is a miss. -/
def urlCacheGet (c : UrlCache) (videoId : String) (now : Nat) :
    Option String × UrlCache :=
  match mapGet c videoId with
  | some cached =>
      if now < cached.expiresAt then (some cached.url, c)
      else (none, mapDelete c videoId)
  | none => (none, c)

/-- Embeds the cache write on successful extraction (source lines 212-219):
`urlCache.set(videoId, {url, extractedAt: now, expiresAt: now + CACHE_DURATION})`. -/
def urlCachePut (c : UrlCache) (videoId url : String) (now : Nat) : UrlCache :=
  mapSet c videoId { url := url, extractedAt := now, expiresAt := now + CACHE_DURATION }

/-- States that every stored entry expires exactly CACHE_DURATION after its
extraction time. -/
def TTLok (c : UrlCache) : Prop :=
  ∀ k e, mapGet c k = some e → e.expiresAt = e.extractedAt + CACHE_DURATION

/-- Operations the source ever performs on the urlCache. -/
inductive CacheOp
  | opGet (k : String) (now : Nat)
  | opPut (k : String) (url : String) (now : Nat)

/-- Applies one cache operation to the cache state. -/
def cacheOpStep (c : UrlCache) : CacheOp → UrlCache
  | .opGet k now => (urlCacheGet c k now).2
  | .opPut k url now => urlCachePut c k url now

/-- Runs a history of cache operations from the empty cache the constructor
creates. -/
def runCacheOps (ops : List CacheOp) : UrlCache :=
  ops.foldl cacheOpStep []

/-! ## Base64 config decoding (src/gateway.js lines 19-40)

decodeConfig wraps its whole body in try/catch and returns `{}` from the
catch block and from every early guard. Node Buffer base64 decoding and
JSON.parse are external collaborators, abstracted as the parameters
`b64decode` and `jsonParse`; a JSON.parse throw is a `jsonParse` error
result, which the catch block turns into `{}`. -/

/-- JSON values as JSON.parse can produce them. -/
inductive Json
  | jnull
  | jbool (b : Bool)
  | jnum (n : Int)
  | jstr (s : String)
  | jarr (xs : List Json)
  | jobj (fields : List (String × Json))

/-- The empty config object `{}`. -/
def emptyObj : Json := Json.jobj []

/-- JavaScript falsiness of a parsed JSON value, as tested by
`config || {}`: null, false, 0 and the empty string are falsy; arrays and
objects are always truthy. -/
def jsFalsy : Json → Bool
  | Json.jnull => true
  | Json.jbool b => !b
  | Json.jnum n => n == 0
  | Json.jstr s => s == ""
  | _ => false

/-- Character class of the cleaning regex `[^A-Za-z0-9+/=]`. -/
def isBase64Char (c : Char) : Bool :=
  (decide ('A' ≤ c ∧ c ≤ 'Z')) || (decide ('a' ≤ c ∧ c ≤ 'z')) ||
  (decide ('0' ≤ c ∧ c ≤ '9')) || c == '+' || c == '/' || c == '='

/-- Embeds `configParam.replace(/[^A-Za-z0-9+\x2f=]/g, '')`. -/
def cleanBase64 (s : String) : String :=
  String.mk (s.toList.filter isBase64Char)

/-- Embeds the guard `!configJson || configJson.trim() === ''`: the decoded
text is empty or whitespace only. -/
def trimmedEmpty (s : String) : Bool :=
  s.toList.all Char.isWhitespace

/-- Embeds decodeConfig, src/gateway.js lines 19-40: absent or empty-string
parameters answer `{}`; the parameter is cleaned to base64 characters and
decoded; empty or whitespace-only decoded text answers `{}`; a JSON.parse
failure is caught and answers `{}`; and `config || {}` replaces any falsy
parse result, JSON null in particular, by `{}`. -/
def decodeConfig (b64decode : String → String) (jsonParse : String → Except String Json)
    (configParam : Option String) : Json :=
  match configParam with
  | none => emptyObj
  | some p =>
      if p = "" then emptyObj
      else
        let configJson := b64decode (cleanBase64 p)
        if trimmedEmpty configJson then emptyObj
        else
          match jsonParse configJson with
          | Except.error _ => emptyObj
          | Except.ok config => if jsFalsy config then emptyObj else config

/-- Concrete session state that has already resolved with the live stream:
ready, timer cleared, five bytes sent, one settlement. -/
def readyDemoState : PState :=
  { streamReady := true, timeoutCleared := true, totalBytes := 5,
    settled := some Outcome.resolved, killSignal := none, settleAttempts := 1 }

/-- Concrete base64 decoder double used to exercise decodeConfig on each of
its fallback paths. -/
def demoB64Decode : String → String := fun s => if s = "zz" then " " else s

/-- Concrete JSON parser double: parses `x` to JSON null and fails on
everything else. -/
def demoJsonParse : String → Except String Json :=
  fun s => if s = "x" then Except.ok Json.jnull else Except.error "bad json"

/-! ## Helper lemmas -/

/-- The readiness flag after one fast event: it is set exactly by stdout
data events and never unset. -/
theorem fastStep_streamReady (s : PState) (e : PEvent) :
    (fastStep s e).streamReady = (s.streamReady || isData e) := by
  cases e <;> simp only [fastStep, isData, settleNow] <;> split_ifs <;> simp_all

/-- The readiness flag after one best event: it is set exactly by stdout
data events and never unset. -/
theorem bestStep_streamReady (s : PState) (e : PEvent) :
    (bestStep s e).streamReady = (s.streamReady || isData e) := by
  cases e <;> simp only [bestStep, isData, settleNow] <;> split_ifs <;> simp_all

/-- Readiness over a whole fast run, generalized over the start state. -/
theorem runFast_streamReady_aux (tr : List PEvent) :
    ∀ s : PState, (tr.foldl fastStep s).streamReady = (s.streamReady || tr.any isData) := by
  induction tr with
  | nil => intro s; simp
  | cons e rest ih =>
      intro s
      simp only [List.foldl_cons, List.any_cons, ih, fastStep_streamReady, Bool.or_assoc]

/-- Readiness over a whole best run, generalized over the start state. -/
theorem runBest_streamReady_aux (tr : List PEvent) :
    ∀ s : PState, (tr.foldl bestStep s).streamReady = (s.streamReady || tr.any isData) := by
  induction tr with
  | nil => intro s; simp
  | cons e rest ih =>
      intro s
      simp only [List.foldl_cons, List.any_cons, ih, bestStep_streamReady, Bool.or_assoc]

/-- Once the fast session is ready, no event settles or attempts to settle
the Promise again. -/
theorem fastStep_ready_frozen (s : PState) (e : PEvent) (h : s.streamReady = true) :
    (fastStep s e).settled = s.settled ∧
    (fastStep s e).settleAttempts = s.settleAttempts := by
  cases e <;> simp only [fastStep, h, settleNow] <;> split_ifs <;> simp_all

/-- Once the best session is ready, no event settles or attempts to settle
the Promise again. -/
theorem bestStep_ready_frozen (s : PState) (e : PEvent) (h : s.streamReady = true) :
    (bestStep s e).settled = s.settled ∧
    (bestStep s e).settleAttempts = s.settleAttempts := by
  cases e <;> simp only [bestStep, h, settleNow] <;> split_ifs <;> simp_all

/-- Association-list set followed by get. -/
theorem mapGet_mapSet (c : UrlCache) (key k : String) (v : CacheEntry) :
    mapGet (mapSet c key v) k = if key = k then some v else mapGet c k := by
  induction c with
  | nil => simp [mapSet, mapGet]
  | cons p rest ih =>
      obtain ⟨k0, e0⟩ := p
      by_cases h1 : k0 = key
      · subst h1
        by_cases hB : k0 = k
        · subst hB; simp [mapSet, mapGet]
        · simp [mapSet, mapGet, hB]
      · by_cases hB : key = k
        · subst hB
          simp [mapSet, mapGet, ih, h1]
        · by_cases hA : k0 = k
          · subst hA
            simp [mapSet, mapGet, h1, hB]
          · simp [mapSet, mapGet, ih, h1, hA, hB]

/-- Association-list delete followed by get. -/
theorem mapGet_mapDelete (c : UrlCache) (key k : String) :
    mapGet (mapDelete c key) k = if key = k then none else mapGet c k := by
  induction c with
  | nil => simp [mapDelete, mapGet]
  | cons p rest ih =>
      obtain ⟨k0, e0⟩ := p
      by_cases h1 : k0 = key
      · subst h1
        by_cases hB : k0 = k
        · subst hB; simp [mapDelete, mapGet, ih]
        · simp [mapDelete, mapGet, ih, hB]
      · by_cases hB : key = k
        · subst hB
          simp [mapDelete, mapGet, ih, h1]
        · by_cases hA : k0 = k
          · subst hA
            simp [mapDelete, mapGet, ih, h1, hB]
          · simp [mapDelete, mapGet, ih, h1, hA, hB]

/-- One cache operation preserves the TTL invariant. -/
theorem ttl_step (c : UrlCache) (op : CacheOp) (h : TTLok c) : TTLok (cacheOpStep c op) := by
  cases op with
  | opGet k now =>
      intro k2 e2 hg
      cases hm : mapGet c k with
      | none =>
          simp only [cacheOpStep, urlCacheGet, hm] at hg
          exact h k2 e2 hg
      | some cached =>
          by_cases ht : now < cached.expiresAt
          · simp only [cacheOpStep, urlCacheGet, hm, if_pos ht] at hg
            exact h k2 e2 hg
          · simp only [cacheOpStep, urlCacheGet, hm, if_neg ht] at hg
            rw [mapGet_mapDelete] at hg
            by_cases hk : k = k2
            · rw [if_pos hk] at hg; cases hg
            · rw [if_neg hk] at hg; exact h k2 e2 hg
  | opPut k url now =>
      intro k2 e2 hg
      simp only [cacheOpStep, urlCachePut] at hg
      rw [mapGet_mapSet] at hg
      by_cases hk : k = k2
      · rw [if_pos hk] at hg
        cases hg
        rfl
      · rw [if_neg hk] at hg; exact h k2 e2 hg

/-- A whole operation history preserves the TTL invariant. -/
theorem ttl_run (ops : List CacheOp) :
    ∀ c : UrlCache, TTLok c → TTLok (ops.foldl cacheOpStep c) := by
  induction ops with
  | nil => intro c h; simpa using h
  | cons op rest ih => intro c h; exact ih _ (ttl_step c op h)

/-- The selection of a one-component alternative is the single pick of that
component, never a merge. -/
theorem selectAlt_singleton (rs : List Rendition) (c : FormatComp) :
    selectAlt rs [c] = (pickBest rs c).map Selection.singleFile := by
  cases hp : pickBest rs c <;> simp [selectAlt, seqOptions, hp]

/-- No rendition matches a `best` component when nothing pre-combined is on
offer. -/
theorem filter_matches_best_nil (rs : List Rendition) (cap : Option Nat)
    (h : ∀ r ∈ rs, r.kind ≠ RKind.combined) :
    rs.filter (matchesComp { fid := "best", heightCap := cap }) = [] := by
  induction rs with
  | nil => rfl
  | cons r rest ih =>
      have hr : r.kind ≠ RKind.combined := h r (by simp)
      have hm : matchesComp { fid := "best", heightCap := cap } r = false := by
        cases hk : r.kind with
        | combined => exact absurd hk hr
        | videoOnly => simp [matchesComp, hk]
        | audioOnly => simp [matchesComp, hk]
      simp only [List.filter_cons, hm, Bool.false_eq_true, if_false]
      exact ih fun x hx => h x (by simp [hx])

/-- A `best` component picks nothing when nothing pre-combined is on
offer. -/
theorem pickBest_best_none (rs : List Rendition) (cap : Option Nat)
    (h : ∀ r ∈ rs, r.kind ≠ RKind.combined) :
    pickBest rs { fid := "best", heightCap := cap } = none := by
  unfold pickBest
  rw [filter_matches_best_nil rs cap h]
  rfl

/-- A found plugin with a resolving URL always costs exactly one process
spawn, whatever the method, quality or stream outcome. -/
theorem handleProxy_spawns (plugins : List String)
    (resolveUrl : String → String → Option String) (streamSettles : String → Bool)
    (s : GatewayState) (r : ProxyRequest)
    (h1 : plugins.contains r.pluginName = true)
    (h2 : (resolveUrl r.pluginName r.videoId).isSome = true) :
    (handleProxy plugins resolveUrl streamSettles s r).1.spawnCount = s.spawnCount + 1 := by
  cases hres : resolveUrl r.pluginName r.videoId with
  | none => rw [hres] at h2; simp at h2
  | some url =>
      simp only [handleProxy, h1, if_true, hres]
      split_ifs <;> rfl

/-! ## Claim theorems -/

/-- C1 counterexample: two stream requests for the same SourceRef (same
plugin and videoId, both resolving to the same URL) spawn two external
extraction processes, not at most one — the proxy handler of gateway.js
keeps no in-flight stream registry at all, so the second request cannot
receive an already-registered stream. -/
theorem proxy_dedup_counterexample :
    ¬ ((runProxy ["youtube"] (fun _ _ => some "u") (fun _ => true) gw0
        [{ methodIsHead := false, pluginName := "youtube", videoId := "abc", quality := some "best" },
         { methodIsHead := false, pluginName := "youtube", videoId := "abc", quality := some "best" }]).spawnCount ≤ 1) ∧
    (runProxy ["youtube"] (fun _ _ => some "u") (fun _ => true) gw0
        [{ methodIsHead := false, pluginName := "youtube", videoId := "abc", quality := some "best" },
         { methodIsHead := false, pluginName := "youtube", videoId := "abc", quality := some "best" }]).spawnCount = 2 := by
  decide

/-- C1 amended: the proxy handler consults no in-flight registry, so every
stream request whose plugin exists and whose URL resolves spawns its own
external extraction process; n requests for the same SourceRef spawn n
processes, concurrent or not. -/
theorem proxy_spawn_per_request (plugins : List String)
    (resolveUrl : String → String → Option String) (streamSettles : String → Bool)
    (s : GatewayState) (rs : List ProxyRequest)
    (h : ∀ r ∈ rs, plugins.contains r.pluginName = true ∧
        (resolveUrl r.pluginName r.videoId).isSome = true) :
    (runProxy plugins resolveUrl streamSettles s rs).spawnCount
      = s.spawnCount + rs.length := by
  induction rs generalizing s with
  | nil => simp [runProxy]
  | cons r rest ih =>
      have hr := h r (List.mem_cons_self r rest)
      have hstep := handleProxy_spawns plugins resolveUrl streamSettles s r hr.1 hr.2
      have htail := ih ((handleProxy plugins resolveUrl streamSettles s r).1)
          (fun x hx => h x (List.mem_cons_of_mem r hx))
      simp only [runProxy] at htail ⊢
      rw [List.foldl_cons, htail, hstep, List.length_cons]
      omega

/-- C1 witness: two concrete identical stream requests drive the spawn
counter from zero to two. -/
theorem proxy_spawn_per_request_witness :
    (runProxy ["youtube"] (fun _ _ => some "u") (fun _ => true) gw0
      [{ methodIsHead := false, pluginName := "youtube", videoId := "a", quality := none },
       { methodIsHead := false, pluginName := "youtube", videoId := "a", quality := none }]).spawnCount
      = gw0.spawnCount + 2 := by
  simpa using proxy_spawn_per_request ["youtube"] (fun _ _ => some "u") (fun _ => true) gw0
    [{ methodIsHead := false, pluginName := "youtube", videoId := "a", quality := none },
     { methodIsHead := false, pluginName := "youtube", videoId := "a", quality := none }]
    (by decide)

/-- C2 counterexample: a HEAD request to the proxy endpoint is answered with
headers only, yet one external extraction process has been spawned by then
— the handler awaits createFastStream or createStream before it tests
`req.method === 'HEAD'` — so the spawn count does not stay zero. -/
theorem head_no_spawn_counterexample :
    (handleProxy ["youtube"] (fun _ _ => some "u") (fun _ => true) gw0
      { methodIsHead := true, pluginName := "youtube", videoId := "abc", quality := some "best" }).2
      = ProxyResponse.headersOnly ∧
    (handleProxy ["youtube"] (fun _ _ => some "u") (fun _ => true) gw0
      { methodIsHead := true, pluginName := "youtube", videoId := "abc", quality := some "best" }).1.spawnCount = 1 ∧
    ¬ ((handleProxy ["youtube"] (fun _ _ => some "u") (fun _ => true) gw0
      { methodIsHead := true, pluginName := "youtube", videoId := "abc", quality := some "best" }).1.spawnCount = 0) := by
  decide

/-- C2 amended: a HEAD request whose plugin exists, whose URL resolves and
whose stream start settles is answered with headers only and no body, but
only after the extraction process has been spawned: the spawn count rises by
exactly one per such request instead of staying zero. -/
theorem head_spawns_before_method_check (plugins : List String)
    (resolveUrl : String → String → Option String) (streamSettles : String → Bool)
    (s : GatewayState) (r : ProxyRequest) (url : String)
    (h1 : r.methodIsHead = true) (h2 : plugins.contains r.pluginName = true)
    (h3 : resolveUrl r.pluginName r.videoId = some url) (h4 : streamSettles url = true) :
    handleProxy plugins resolveUrl streamSettles s r
      = ({ spawnCount := s.spawnCount + 1 }, ProxyResponse.headersOnly) := by
  simp only [handleProxy, h1, h2, h3, h4, if_true]

/-- C2 witness: a concrete HEAD request gets the headers-only response with
the spawn counter at one. -/
theorem head_spawns_before_method_check_witness :
    handleProxy ["youtube"] (fun _ _ => some "u") (fun _ => true) gw0
      { methodIsHead := true, pluginName := "youtube", videoId := "h", quality := none }
      = ({ spawnCount := 1 }, ProxyResponse.headersOnly) := by
  simpa using head_spawns_before_method_check ["youtube"] (fun _ _ => some "u") (fun _ => true)
    gw0 { methodIsHead := true, pluginName := "youtube", videoId := "h", quality := none }
    "u" rfl (by decide) rfl rfl

/-- C3: when the external process exits with code 0 and signal null after
producing zero output bytes, both the fast and the best stream start stay
unsettled forever — the exit handler clears the init timer and only logs on
code 0 — whereas a nonzero exit code before any byte does reject with that
code. The claim (and the spec line it quotes) requires the zero-byte exit
with code 0 to be reported as a failure too, so this is a divergence of the
code from its stated contract. -/
theorem exit_zero_no_bytes_unsettled :
    (runFast [PEvent.exited (some 0) none]).settled = none ∧
    (runBest [PEvent.exited (some 0) none]).settled = none ∧
    (runFast [PEvent.exited (some 2) none]).settled = some (Outcome.exitErr (some 2)) ∧
    (runBest [PEvent.exited (some 2) none]).settled = some (Outcome.exitErr (some 2)) ∧
    (runFast [PEvent.exited (some 0) none]).timeoutCleared = true ∧
    (runBest [PEvent.exited (some 0) none]).timeoutCleared = true := by
  decide

/-- C4: the fast start settles on the timer path exactly as claimed — when
the init timer fires with zero bytes produced it kills with SIGKILL and
rejects with the init-timeout error, and the first data chunk resolves —
but the start does NOT always settle: if the process exits cleanly (code 0)
with zero bytes before the 10-second timer, the exit handler clears that
timer without settling, and even a later timer tick is then a no-op, so the
start hangs indefinitely, contradicting the claim. -/
theorem fast_start_timeout_and_clean_exit_hang :
    (runFast [PEvent.timeoutFires]).settled = some Outcome.initTimeoutErr ∧
    (runFast [PEvent.timeoutFires]).killSignal = some PSignal.sigkill ∧
    (runFast [PEvent.dataChunk 1]).settled = some Outcome.resolved ∧
    (runFast [PEvent.exited (some 0) none, PEvent.timeoutFires]).settled = none ∧
    (runFast [PEvent.exited (some 0) none, PEvent.timeoutFires]).killSignal = none ∧
    FAST_INIT_TIMEOUT_MS = 10000 := by
  decide

/-- C5 counterexample: on client disconnect the proxy handler only calls
destroy() on the stdout Readable it was handed; the claim that the
underlying extraction process is sent a termination signal via kill() is
false — gateway.js never invokes kill and has no registry entry to
remove. -/
theorem disconnect_kill_counterexample :
    ¬ ((onClientDisconnect ytDlpStdoutHandle).killCalled = true) ∧
    (onClientDisconnect ytDlpStdoutHandle).killCalled = false ∧
    (onClientDisconnect ytDlpStdoutHandle).destroyCalled = true := by
  decide

/-- C5 amended: a client disconnect or abort triggers destroy() on the
stdout stream returned by the streaming service, whenever that handle has a
destroy method; no termination signal is sent to the extraction process by
the gateway, and no registry exists from which an entry could be
removed. -/
theorem disconnect_destroys_stdout_only (h : StreamHandle) (hd : h.hasDestroy = true) :
    (onClientDisconnect h).destroyCalled = true ∧
    (onClientDisconnect h).killCalled = h.killCalled ∧
    (onClientDisconnect h).hasDestroy = h.hasDestroy := by
  simp [onClientDisconnect, hd]

/-- C5 witness: a concrete handle with a destroy method gets destroy called
and keeps its kill flag untouched. -/
theorem disconnect_destroys_stdout_only_witness :
    (onClientDisconnect { hasDestroy := true, destroyCalled := false, killCalled := true }).destroyCalled = true ∧
    (onClientDisconnect { hasDestroy := true, destroyCalled := false, killCalled := true }).killCalled = true := by
  have h := disconnect_destroys_stdout_only
    { hasDestroy := true, destroyCalled := false, killCalled := true } rfl
  exact ⟨h.1, h.2.1⟩

/-- C6 counterexample: the fast selector is `best[height<=720]/best`, whose
second alternative carries no height cap; on a source offering only a
pre-combined 1080p rendition the selection succeeds with that 1080p
rendition, above the 720p-equivalent cap the claim asserts for all emitted
requests. -/
theorem fast_cap_counterexample :
    fastAlts = [[{ fid := "best", heightCap := some 720 }],
                [{ fid := "best", heightCap := none }]] ∧
    selectFormat fastAlts [{ kind := RKind.combined, height := 1080 }]
      = Selection.singleFile { kind := RKind.combined, height := 1080 } ∧
    ¬ (1080 ≤ 720) := by
  decide

/-- C6 amended: the fast strategy requests only pre-combined single-file
renditions — every alternative of its selector is one `best` component, it
never selects a merge, and its argument vector carries no merge-output
flag — preferring a 720p-capped rendition but falling back to the best
pre-combined rendition of any height; when no pre-combined rendition is
available it fails with no format rather than falling back to a server-side
merge. -/
theorem fast_precombined_no_merge :
    (∀ rs : List Rendition, isMerge (selectFormat fastAlts rs) = false) ∧
    (∀ rs : List Rendition, (∀ r ∈ rs, r.kind ≠ RKind.combined) →
        selectFormat fastAlts rs = Selection.noFormat) ∧
    fastStreamArgs.contains "--merge-output-format" = false ∧
    argValue fastStreamArgs "-f" = some "best[height<=720]/best" := by
  have hfa : fastAlts = [[{ fid := "best", heightCap := some 720 }],
      [{ fid := "best", heightCap := none }]] := by decide
  refine ⟨?_, ?_, by decide, by decide⟩
  · intro rs
    rw [hfa]
    simp only [selectFormat, selectAlt_singleton]
    cases hp : pickBest rs { fid := "best", heightCap := some 720 } <;>
      cases hq : pickBest rs { fid := "best", heightCap := none } <;>
        simp [hp, hq, isMerge]
  · intro rs h
    rw [hfa]
    simp only [selectFormat, selectAlt_singleton,
      pickBest_best_none rs (some 720) h, pickBest_best_none rs none h]
    rfl

/-- C6 witness: on a concrete pre-combined 480p catalogue the fast selection
is not a merge, and on a concrete video-only catalogue it fails. -/
theorem fast_precombined_no_merge_witness :
    isMerge (selectFormat fastAlts [{ kind := RKind.combined, height := 480 }]) = false ∧
    selectFormat fastAlts [{ kind := RKind.videoOnly, height := 2160 }]
      = Selection.noFormat := by
  exact ⟨fast_precombined_no_merge.1 [{ kind := RKind.combined, height := 480 }],
    fast_precombined_no_merge.2.1 [{ kind := RKind.videoOnly, height := 2160 }] (by decide)⟩

/-- C7 counterexample: two stream starts differing only in the text of one
stderr chunk end in different settlement states — text containing ERROR
rejects the pending start, other text leaves it pending — so stderr content
by itself does decide failure, for the fast and the best start alike. -/
theorem stderr_control_flow_counterexample :
    (runFast [PEvent.stderrData "ERROR: denied"]).settled
      = some (Outcome.stderrErr "ERROR: denied") ∧
    (runFast [PEvent.stderrData "download progress"]).settled = none ∧
    (runBest [PEvent.stderrData "ERROR: denied"]).settled
      = some (Outcome.stderrErr "ERROR: denied") ∧
    (runBest [PEvent.stderrData "download progress"]).settled = none := by
  decide

/-- C7 amended: stderr affects control flow in exactly one way — a chunk
whose text contains ERROR or CRITICAL, arriving before the first output
byte, rejects the pending start with a message built from that text; a
chunk without those markers, or any chunk after readiness, leaves the
session state completely unchanged. -/
theorem stderr_gating_amended :
    (∀ (s : PState) (msg : String),
        (hasSubstr msg "ERROR" || hasSubstr msg "CRITICAL") = false →
        fastStep s (PEvent.stderrData msg) = s ∧ bestStep s (PEvent.stderrData msg) = s) ∧
    (∀ (s : PState) (msg : String), s.streamReady = true →
        fastStep s (PEvent.stderrData msg) = s ∧ bestStep s (PEvent.stderrData msg) = s) ∧
    (∀ (s : PState) (msg : String), s.streamReady = false →
        (hasSubstr msg "ERROR" || hasSubstr msg "CRITICAL") = true →
        (fastStep s (PEvent.stderrData msg)).settleAttempts = s.settleAttempts + 1 ∧
        (s.settled = none →
          (fastStep s (PEvent.stderrData msg)).settled = some (Outcome.stderrErr msg)) ∧
        (bestStep s (PEvent.stderrData msg)).settleAttempts = s.settleAttempts + 1 ∧
        (s.settled = none →
          (bestStep s (PEvent.stderrData msg)).settled = some (Outcome.stderrErr msg))) := by
  refine ⟨?_, ?_, ?_⟩
  · intro s msg h
    constructor <;> simp [fastStep, bestStep, h]
  · intro s msg h
    constructor <;> simp [fastStep, bestStep, h]
  · intro s msg h1 h2
    refine ⟨?_, ?_, ?_, ?_⟩ <;>
      simp [fastStep, bestStep, h1, h2, settleNow] <;> intro hs <;> simp [hs]

/-- C7 witness: at the fresh session state, a chunk without the markers is
a strict no-op and a CRITICAL chunk rejects the start. -/
theorem stderr_gating_amended_witness :
    fastStep initPState (PEvent.stderrData "merging formats") = initPState ∧
    (fastStep initPState (PEvent.stderrData "CRITICAL: boom")).settled
      = some (Outcome.stderrErr "CRITICAL: boom") := by
  exact ⟨(stderr_gating_amended.1 initPState "merging formats" (by decide)).1,
    (stderr_gating_amended.2.2 initPState "CRITICAL: boom" rfl (by decide)).2.1 rfl⟩

/-- C8: the urlCache honours its contract — a put stores extractedAt = now
and expiresAt = now + CACHE_DURATION, unconditionally overwriting any prior
entry for the key; a get strictly before expiresAt returns exactly the
stored URL and leaves the cache unchanged; a get at or past expiresAt
evicts the entry and reports a miss; every entry reachable by any operation
history expires exactly CACHE_DURATION after its extraction time; and
CACHE_DURATION is two hours in milliseconds. -/
theorem urlcache_contract :
    (∀ (c : UrlCache) (k url : String) (now : Nat),
        mapGet (urlCachePut c k url now) k
          = some { url := url, extractedAt := now, expiresAt := now + CACHE_DURATION }) ∧
    (∀ (c : UrlCache) (k : String) (now : Nat) (e : CacheEntry),
        mapGet c k = some e → now < e.expiresAt →
        urlCacheGet c k now = (some e.url, c)) ∧
    (∀ (c : UrlCache) (k : String) (now : Nat) (e : CacheEntry),
        mapGet c k = some e → e.expiresAt ≤ now →
        (urlCacheGet c k now).1 = none ∧ mapGet (urlCacheGet c k now).2 k = none) ∧
    (∀ (ops : List CacheOp) (k : String) (e : CacheEntry),
        mapGet (runCacheOps ops) k = some e →
        e.expiresAt = e.extractedAt + CACHE_DURATION) ∧
    CACHE_DURATION = 7200000 := by
  refine ⟨?_, ?_, ?_, ?_, by decide⟩
  · intro c k url now
    unfold urlCachePut
    rw [mapGet_mapSet]
    simp
  · intro c k now e h1 h2
    simp [urlCacheGet, h1, h2]
  · intro c k now e h1 h2
    have hlt : ¬ now < e.expiresAt := by omega
    refine ⟨by simp [urlCacheGet, h1, hlt], ?_⟩
    simp only [urlCacheGet, h1, hlt, if_false]
    rw [mapGet_mapDelete]
    simp
  · intro ops k e hg
    exact ttl_run ops [] (fun k2 e2 h2 => by simp [mapGet] at h2) k e hg

/-- C8 witness: a concrete put is readable back with the two-hour expiry, a
get at time 55 against expiry 60 hits with the stored URL, a get at time 60
misses and evicts, and a concrete one-put history satisfies the TTL
equation. -/
theorem urlcache_contract_witness :
    mapGet (urlCachePut [] "vid" "u1" 50) "vid"
      = some { url := "u1", extractedAt := 50, expiresAt := 50 + CACHE_DURATION } ∧
    urlCacheGet [("vid", { url := "u1", extractedAt := 50, expiresAt := 60 })] "vid" 55
      = (some "u1", [("vid", { url := "u1", extractedAt := 50, expiresAt := 60 })]) ∧
    (urlCacheGet [("vid", { url := "u1", extractedAt := 50, expiresAt := 60 })] "vid" 60).1
      = none ∧
    (7200050 : Nat) = 50 + CACHE_DURATION := by
  refine ⟨urlcache_contract.1 [] "vid" "u1" 50,
    urlcache_contract.2.1 [("vid", { url := "u1", extractedAt := 50, expiresAt := 60 })]
      "vid" 55 { url := "u1", extractedAt := 50, expiresAt := 60 } (by decide) (by decide),
    (urlcache_contract.2.2.1 [("vid", { url := "u1", extractedAt := 50, expiresAt := 60 })]
      "vid" 60 { url := "u1", extractedAt := 50, expiresAt := 60 } (by decide) (by decide)).1,
    ?_⟩
  have h := urlcache_contract.2.2.2.1 [CacheOp.opPut "vid" "u1" 50] "vid"
    { url := "u1", extractedAt := 50, expiresAt := 7200050 } (by decide)
  simpa using h

/-- C9: the readiness flag of a stream session is set exactly by the first
stdout data event and never reverts — after any step it equals the old flag
or-ed with whether the event was data, and over a whole run it is true
exactly when some data event occurred — and every resolve/reject site is
guarded by it: once the session is ready, no later exit, process error,
stderr chunk or timer tick settles or even attempts to settle the Promise
again, for the fast and the best start alike. -/
theorem readiness_flag_contract :
    (∀ (s : PState) (e : PEvent),
        (fastStep s e).streamReady = (s.streamReady || isData e)) ∧
    (∀ (s : PState) (e : PEvent),
        (bestStep s e).streamReady = (s.streamReady || isData e)) ∧
    (∀ tr : List PEvent, (runFast tr).streamReady = tr.any isData) ∧
    (∀ tr : List PEvent, (runBest tr).streamReady = tr.any isData) ∧
    (∀ (s : PState) (e : PEvent), s.streamReady = true →
        (fastStep s e).settled = s.settled ∧
        (fastStep s e).settleAttempts = s.settleAttempts) ∧
    (∀ (s : PState) (e : PEvent), s.streamReady = true →
        (bestStep s e).settled = s.settled ∧
        (bestStep s e).settleAttempts = s.settleAttempts) := by
  refine ⟨fastStep_streamReady, bestStep_streamReady, ?_, ?_,
    fastStep_ready_frozen, bestStep_ready_frozen⟩
  · intro tr
    simpa [initPState] using runFast_streamReady_aux tr initPState
  · intro tr
    simpa [initPState] using runBest_streamReady_aux tr initPState

/-- C9 witness: a concrete ready session absorbs a nonzero exit without a
new settlement attempt, and a concrete run with one data chunk reports the
flag set. -/
theorem readiness_flag_contract_witness :
    (fastStep readyDemoState (PEvent.exited (some 5) none)).settled
      = some Outcome.resolved ∧
    (runBest [PEvent.stderrData "x", PEvent.dataChunk 7]).streamReady = true := by
  refine ⟨?_, ?_⟩
  · have h := readiness_flag_contract.2.2.2.2.1 readyDemoState
      (PEvent.exited (some 5) none) rfl
    simpa [readyDemoState] using h.1
  · have h := readiness_flag_contract.2.2.2.1 [PEvent.stderrData "x", PEvent.dataChunk 7]
    simpa using h

/-- C10: decodeConfig is total over its abstracted collaborators and falls
back to the empty object on every degenerate input — an absent parameter,
an empty parameter, decoded text that is empty or whitespace only, a JSON
parse failure (the try/catch path), and a successful parse of JSON null
(the `config || empty` path) — so the HTTP endpoints treat a malformed
config exactly like an absent one. -/
theorem decode_config_fallback (b64decode : String → String)
    (jsonParse : String → Except String Json) :
    (decodeConfig b64decode jsonParse none = emptyObj) ∧
    (decodeConfig b64decode jsonParse (some "") = emptyObj) ∧
    (∀ p : String, p ≠ "" → trimmedEmpty (b64decode (cleanBase64 p)) = true →
        decodeConfig b64decode jsonParse (some p) = emptyObj) ∧
    (∀ (p msg : String), p ≠ "" → trimmedEmpty (b64decode (cleanBase64 p)) = false →
        jsonParse (b64decode (cleanBase64 p)) = Except.error msg →
        decodeConfig b64decode jsonParse (some p) = emptyObj) ∧
    (∀ p : String, p ≠ "" → trimmedEmpty (b64decode (cleanBase64 p)) = false →
        jsonParse (b64decode (cleanBase64 p)) = Except.ok Json.jnull →
        decodeConfig b64decode jsonParse (some p) = emptyObj) := by
  refine ⟨rfl, rfl, ?_, ?_, ?_⟩
  · intro p h1 h2
    simp [decodeConfig, h1, h2]
  · intro p msg h1 h2 h3
    simp [decodeConfig, h1, h2, h3]
  · intro p h1 h2 h3
    simp [decodeConfig, h1, h2, h3, jsFalsy]

/-- C10 witness: with concrete decoder and parser doubles, every fallback
path of decodeConfig lands on the empty object. -/
theorem decode_config_fallback_witness :
    decodeConfig demoB64Decode demoJsonParse none = emptyObj ∧
    decodeConfig demoB64Decode demoJsonParse (some "") = emptyObj ∧
    decodeConfig demoB64Decode demoJsonParse (some "zz") = emptyObj ∧
    decodeConfig demoB64Decode demoJsonParse (some "yy") = emptyObj ∧
    decodeConfig demoB64Decode demoJsonParse (some "x") = emptyObj := by
  refine ⟨(decode_config_fallback demoB64Decode demoJsonParse).1,
    (decode_config_fallback demoB64Decode demoJsonParse).2.1,
    (decode_config_fallback demoB64Decode demoJsonParse).2.2.1 "zz" (by decide) (by decide),
    (decode_config_fallback demoB64Decode demoJsonParse).2.2.2.1 "yy" "bad json"
      (by decide) (by decide) (by rfl),
    (decode_config_fallback demoB64Decode demoJsonParse).2.2.2.2 "x" (by decide) (by decide)
      (by rfl)⟩

end OMGRome
